import Mathlib

/-!
Shallow embedding of the pygicord pagination library (src/pygicord).
The repository contains two implementations of the same design:
the newer `Base` class (base.py, control.py) and the older
`Paginator` class (paginator.py).  Both are modelled below; each
definition carries a pointer to the source lines it translates.
-/

namespace Pygicord

/-- A raw reaction event as delivered by the platform
(discord.RawReactionActionEvent): the acting user id, the id of the
message that was reacted to, and the emoji rendered as a string. -/
structure RawReactionActionEvent where
  user_id : Nat
  message_id : Nat
  emoji : String
deriving DecidableEq, Repr

/-- The keyword arguments passed to message send/edit
(content and/or embed; an embed is identified by an opaque id). -/
structure Kwargs where
  content : Option String
  embed : Option Nat
deriving DecidableEq, Repr

/-- One element of the pages collection.  Python is duck-typed here:
a page may be a str, a discord.Embed, a plain dict of kwargs, or any
other object (which the renderer rejects with TypeError). -/
inductive Page
  | str (s : String)
  | embed (id : Nat)
  | dict (k : Kwargs)
  | other
deriving DecidableEq, Repr

/-- Whether a page is a discord.Embed instance. -/
def Page.isEmbed : Page → Bool
  | Page.embed _ => true
  | _ => false

/-- The capability set returned by permissions_for (base.py 233-246). -/
structure Permissions where
  send_messages : Bool
  embed_links : Bool
  add_reactions : Bool
  use_external_emojis : Bool
  read_message_history : Bool
deriving DecidableEq, Repr

/-- The distinct PaginationError subclasses (exceptions.py 11-38). -/
inductive PermError
  | cannotSendMessages
  | cannotEmbedLinks
  | cannotAddReactions
  | cannotUseExternalEmojis
  | cannotReadMessageHistory
deriving DecidableEq, Repr

/-- Errors that the embedded code can raise: the permission errors,
the Python built-in errors used by the source, and the two platform
exception classes that matter to the cleanup paths
(discord.HTTPException versus anything else). -/
inductive Err
  | permError (e : PermError)
  | typeError
  | valueError
  | indexError
  | httpException
  | otherError
deriving DecidableEq, Repr

/-- StopAction (enums.py 6-9). -/
inductive StopAction
  | doNothing
  | deleteMessage
  | clearReactions
deriving DecidableEq, Repr

/-- The two background tasks a session owns (base.py 308-309). -/
inductive TaskKind
  | runTask
  | addReactionsTask
deriving DecidableEq, Repr

/-- Platform calls observable in a session trace. -/
inductive Call
  | deleteMessage
  | clearReactions
  | spawnController
  | edit (k : Kwargs)
deriving DecidableEq, Repr

/-- A resolved control of the Base controller (control.py 18-57):
its identifying emoji and its sort position.  The callback itself is
user supplied and opaque to the claims below. -/
structure Control where
  emoji : String
  position : Nat
deriving DecidableEq, Repr

/-- The Base paginator state (base.py 58-112).  `author`,
`bot_user_id` and `message` model `self.author`, `self.bot.user.id`
and `self.message`; `controller` models the resolved, display-filtered
controller mapping (base.py 134-146) in its key order; `cancelled`
records the tasks cancelled so far, so that task cleanup is stateful. -/
structure Base where
  pages : List Page
  embed_links : Bool
  author : Option Nat
  bot_user_id : Nat
  message : Option Nat
  index : Nat
  controller : List Control
  is_running : Bool
  tasks : List TaskKind
  cancelled : List TaskKind
deriving DecidableEq, Repr

/-- `self.message.id`; only consulted once the session has a message. -/
def Base.messageId (b : Base) : Nat := b.message.getD 0

/-- `self.controller.keys()` of the resolved controller mapping. -/
def Base.controllerKeys (b : Base) : List String := b.controller.map Control.emoji

/-- `Base._check` (base.py 148-155).  The Python expression is
`self.author is None or payload.user_id == self.author.id and ...`:
`and` binds tighter than `or`, so an unset author makes the whole
filter true before any other field is inspected. -/
def Base.check (b : Base) (ev : RawReactionActionEvent) : Bool :=
  match b.author with
  | none => true
  | some aid =>
      ev.user_id == aid && ev.user_id != b.bot_user_id &&
        ev.message_id == b.messageId && b.controllerKeys.contains ev.emoji

/-- The possible outcomes of `Base.dispatch` (base.py 203-220). -/
inductive DispatchOutcome
  | returned
  | invoked (c : Control)
  | crashTypeError
deriving DecidableEq, Repr

/-- `Base.dispatch` (base.py 203-220): return early on a foreign
message id; otherwise, while running, look the emoji up in the
controller mapping with `.get` and call the result.  When the lookup
misses, `control` is None and `await control(self, payload)` raises
TypeError, which is `crashTypeError` here. -/
def Base.dispatch (b : Base) (ev : RawReactionActionEvent) : DispatchOutcome :=
  if ev.message_id ≠ b.messageId then DispatchOutcome.returned
  else if b.is_running then
    match b.controller.find? (fun c => c.emoji == ev.emoji) with
    | some c => DispatchOutcome.invoked c
    | none => DispatchOutcome.crashTypeError
  else DispatchOutcome.returned

/-- `Base._get_kwargs_from_page` (base.py 222-231): index into the
pages list, then branch on the page kind; anything that is not a
dict, str or Embed raises TypeError. -/
def get_kwargs_from_page (pages : List Page) (index : Nat) : Except Err Kwargs :=
  match pages.get? index with
  | none => Except.error Err.indexError
  | some (Page.dict k) => Except.ok k
  | some (Page.str s) => Except.ok { content := some s, embed := none }
  | some (Page.embed e) => Except.ok { content := none, embed := some e }
  | some Page.other => Except.error Err.typeError

/-- `Base.should_add_reactions` (base.py 248-249). -/
def Base.should_add_reactions (b : Base) : Bool := decide (1 < b.pages.length)

/-- `Base._ensure_permissions` (base.py 233-246): raise the first
missing capability in declaration order; the embed-links test is
gated on the constructor flag, the reaction capabilities on
`should_add_reactions`. -/
def Base.ensure_permissions (b : Base) (perms : Permissions) : Option PermError :=
  if !perms.send_messages then some PermError.cannotSendMessages
  else if b.embed_links && !perms.embed_links then some PermError.cannotEmbedLinks
  else if b.should_add_reactions then
    if !perms.add_reactions then some PermError.cannotAddReactions
    else if !perms.use_external_emojis then some PermError.cannotUseExternalEmojis
    else if !perms.read_message_history then some PermError.cannotReadMessageHistory
    else none
  else none

/-- `Base._tasks_cleanup` (base.py 198-201): cancel every owned task
and clear the task list. -/
def Base.tasks_cleanup (b : Base) : Base :=
  { b with cancelled := b.cancelled ++ b.tasks, tasks := [] }

/-- The index setter (base.py 128-132): assign only when the new
value is inside `[0, len(self))`, silently keep the old index
otherwise. -/
def Base.setIndex (b : Base) (i : Int) : Base :=
  if 0 ≤ i ∧ i < (b.pages.length : Int) then { b with index := i.toNat } else b

/-- `Base.show_page` (base.py 255-267): run the index setter, then
edit the message with the kwargs of the page at the stored index. -/
def Base.show_page (b : Base) (i : Int) : Base × Except Err Kwargs :=
  let b1 := b.setIndex i
  (b1, get_kwargs_from_page b1.pages b1.index)

/-- What one iteration of the dispatch loop observed from one
dispatched payload (base.py 163-179): the invoked control either
returned normally, raised StopPagination with some action, or raised
some other error. -/
inductive LoopEv
  | cont
  | raiseStop (a : StopAction)
  | crash
deriving DecidableEq, Repr

/-- How the `while self._is_running` loop of `Base._run` was left. -/
inductive LoopExit
  | notRunning
  | stopped (a : StopAction)
  | crashed
deriving DecidableEq, Repr

/-- The loop body of `Base._run` (base.py 163-179): while running,
wait for the next matching event; an exhausted event list is a wait
that timed out (`len(done) == 0`), which raises
`StopPagination(StopAction.CLEAR_REACTIONS)`; otherwise dispatch the
payload and continue unless it raised. -/
def loopBody : Bool → List LoopEv → LoopExit
  | false, _ => LoopExit.notRunning
  | true, [] => LoopExit.stopped StopAction.clearReactions
  | true, LoopEv.cont :: rest => loopBody true rest
  | true, LoopEv.raiseStop a :: _ => LoopExit.stopped a
  | true, LoopEv.crash :: _ => LoopExit.crashed

/-- The outcome of one platform call whose failure mode is chosen by
the environment. -/
structure PlatformEnv where
  deleteErr : Option Err
  clearErr : Option Err
deriving DecidableEq, Repr

/-- The `except StopPagination` handler of `Base._run`
(base.py 180-192): perform the cleanup action; only
discord.HTTPException is caught, every other error keeps
propagating. -/
def handleStopAction (a : StopAction) (env : PlatformEnv) : List Call × Option Err :=
  match a with
  | StopAction.doNothing => ([], none)
  | StopAction.deleteMessage =>
      ([Call.deleteMessage],
        match env.deleteErr with
        | some Err.httpException => none
        | e => e)
  | StopAction.clearReactions =>
      ([Call.clearReactions],
        match env.clearErr with
        | some Err.httpException => none
        | e => e)

/-- Result of `Base._run`: the final session state, the platform
calls made by the termination handler, and the error that escaped
past the coroutine, if any. -/
structure RunResult where
  final : Base
  calls : List Call
  escaped : Option Err
deriving Repr

/-- `Base._run` (base.py 157-196): run the loop body, handle a
StopPagination by its action, and in the `finally` block set the
running flag false and run the task cleanup, whatever happened. -/
def Base.run (b : Base) (events : List LoopEv) (env : PlatformEnv) : RunResult :=
  let exit := loopBody b.is_running events
  let acted : List Call × Option Err :=
    match exit with
    | LoopExit.notRunning => ([], none)
    | LoopExit.crashed => ([], some Err.otherError)
    | LoopExit.stopped a => handleStopAction a env
  { final := Base.tasks_cleanup { b with is_running := false },
    calls := acted.1,
    escaped := acted.2 }

/-- The invocation context handed to `Base.start` (base.py 269-309):
the invoking author, the bot identity, whether the channel is in a
guild, the permission set there, and the id the platform assigns to
the sent message. -/
structure Ctx where
  author_id : Nat
  bot_user_id : Nat
  in_guild : Bool
  perms : Permissions
  sent_message_id : Nat
deriving DecidableEq, Repr

/-- The observable actions of `Base.start`, in order. -/
inductive StartCall
  | send (k : Kwargs)
  | createRunTask
  | createAddReactionsTask
deriving DecidableEq, Repr

/-- Result of `Base.start`: final state, ordered action trace, and
the error raised to the caller, if any. -/
structure StartResult where
  final : Base
  calls : List StartCall
  error : Option Err
deriving Repr

/-- Tail of `Base.start` (base.py 305-309): when more than one page,
cancel stale tasks, set the running flag and create the two
background tasks. -/
def Base.startTasks (b : Base) (calls : List StartCall) : StartResult :=
  if b.should_add_reactions then
    let b2 := Base.tasks_cleanup b
    let b3 := { b2 with is_running := true, tasks := [TaskKind.runTask, TaskKind.addReactionsTask] }
    { final := b3,
      calls := calls ++ [StartCall.createRunTask, StartCall.createAddReactionsTask],
      error := none }
  else { final := b, calls := calls, error := none }

/-- Middle of `Base.start` (base.py 301-303): when no message exists
yet, build the kwargs of page 0 and send the initial message. -/
def Base.startSend (b : Base) (ctx : Ctx) : StartResult :=
  match b.message with
  | none =>
      match get_kwargs_from_page b.pages 0 with
      | Except.error e => { final := b, calls := [], error := some e }
      | Except.ok k =>
          Base.startTasks { b with message := some ctx.sent_message_id }
            [StartCall.send k]
  | some _ => Base.startTasks b []

/-- `Base.start` (base.py 269-309): bind the context, gate on
permissions when invoked in a guild, send the first page if needed,
then launch the background tasks.  The cached-controller reset of
base.py 288-291 is not modelled: `controller` is already the resolved
mapping. -/
def Base.start (b : Base) (ctx : Ctx) : StartResult :=
  let b1 := { b with author := some ctx.author_id, bot_user_id := ctx.bot_user_id }
  if ctx.in_guild then
    match b1.ensure_permissions ctx.perms with
    | some e => { final := b1, calls := [], error := some (Err.permError e) }
    | none => Base.startSend b1 ctx
  else Base.startSend b1 ctx

/-- The pages argument accepted by the constructors: a single str, a
single discord.Embed (the only single-page kinds the Base constructor
recognises and wraps), or a list. -/
inductive PagesInput
  | singleStr (s : String)
  | singleEmbed (id : Nat)
  | list (ps : List Page)
deriving DecidableEq, Repr

/-- Wrapping performed by both constructors: a bare str or Embed
becomes a one-element list. -/
def PagesInput.wrap : PagesInput → List Page
  | PagesInput.singleStr s => [Page.str s]
  | PagesInput.singleEmbed e => [Page.embed e]
  | PagesInput.list ps => ps

/-- `Base.__init__` (base.py 92-112): wrap a bare page, raise
ValueError on an empty collection, and initialise the session idle at
index 0.  The not-yet-bound `bot` is modelled with id 0 until `start`
overwrites it. -/
def Base.init (input : PagesInput) (embed_links : Bool) : Except Err Base :=
  let pages := input.wrap
  if pages.length = 0 then Except.error Err.valueError
  else Except.ok
    { pages := pages, embed_links := embed_links, author := none,
      bot_user_id := 0, message := none, index := 0, controller := [],
      is_running := false, tasks := [], cancelled := [] }

/-- The control names of the hard-coded `_reactions` mapping of the
older Paginator (paginator.py 68-76). -/
inductive PControl
  | first
  | previous
  | stop
  | next
  | last
  | input
  | lock
deriving DecidableEq, Repr

/-- The `_reactions` mapping as initialised by
`Paginator.__init__` (paginator.py 68-76), in insertion order. -/
def defaultReactions : List (String × PControl) :=
  [("⏮", PControl.first), ("◀", PControl.previous), ("⏹️", PControl.stop),
   ("▶", PControl.next), ("⏭", PControl.last), ("🔢", PControl.input),
   ("🔒", PControl.lock)]

/-- State of the older `Paginator` (paginator.py 20-83).  `author`
models `_author` (the lock owner, cleared by unlock), `ctx_author_id`
models `self.ctx.author.id`, `lock_locked` the advisory
`self.__lock`, and `cancelled` the tasks cancelled so far. -/
structure Paginator where
  pages : List Page
  is_compact_flag : Bool
  author : Option Nat
  ctx_author_id : Nat
  message_id : Nat
  index : Int
  reactions : List (String × PControl)
  lock_locked : Bool
  is_running : Bool
  tasks : List TaskKind
  cancelled : List TaskKind
deriving DecidableEq, Repr

/-- `Paginator.__init__` (paginator.py 50-83): store the options,
initialise the reaction mapping, and wrap a non-list pages argument
into a one-element list.  There is no emptiness check. -/
def Paginator.init (input : PagesInput) (is_compact : Bool) : Paginator :=
  { pages := input.wrap, is_compact_flag := is_compact, author := none,
    ctx_author_id := 0, message_id := 0, index := 0,
    reactions := defaultReactions, lock_locked := false,
    is_running := false, tasks := [], cancelled := [] }

/-- `Paginator.max_pages` (paginator.py 88-90): `len(self.pages) - 1`
as a Python integer. -/
def Paginator.max_pages (p : Paginator) : Int := (p.pages.length : Int) - 1

/-- `Paginator.should_add_reactions` (paginator.py 132-133). -/
def Paginator.should_add_reactions (p : Paginator) : Bool := decide (1 < p.pages.length)

/-- `Paginator.check` (paginator.py 102-108).  Same shape as
`Base._check` but without the bot-identity conjunct; the same
`or`-over-`and` precedence applies. -/
def Paginator.check (p : Paginator) (ev : RawReactionActionEvent) : Bool :=
  match p.author with
  | none => true
  | some aid =>
      ev.user_id == aid && ev.message_id == p.message_id &&
        (p.reactions.any fun kv => kv.1 == ev.emoji)

/-- `Paginator._get_page_kwargs` (paginator.py 139-146): only str and
Embed pages are renderable here, anything else raises TypeError. -/
def Paginator.get_page_kwargs (pages : List Page) (index : Nat) : Except Err Kwargs :=
  match pages.get? index with
  | none => Except.error Err.indexError
  | some (Page.str s) => Except.ok { content := some s, embed := none }
  | some (Page.embed e) => Except.ok { content := none, embed := some e }
  | some _ => Except.error Err.typeError

/-- `Paginator._check_permissions` (paginator.py 243-258): like the
Base gate, except that the embed-links requirement is derived from
the pages themselves. -/
def Paginator.check_permissions (p : Paginator) (perms : Permissions) : Option PermError :=
  if !perms.send_messages then some PermError.cannotSendMessages
  else if (p.pages.any Page.isEmbed) && !perms.embed_links then
    some PermError.cannotEmbedLinks
  else if p.should_add_reactions then
    if !perms.add_reactions then some PermError.cannotAddReactions
    else if !perms.use_external_emojis then some PermError.cannotUseExternalEmojis
    else if !perms.read_message_history then some PermError.cannotReadMessageHistory
    else none
  else none

/-- Result of a Paginator coroutine: final state, platform calls, and
the escaped error if any. -/
structure PRunResult where
  final : Paginator
  calls : List Call
  escaped : Option Err
deriving Repr

/-- `Paginator.stop` (paginator.py 148-157): set the running flag
false, cancel and clear the owned tasks, then delete the message,
swallowing only discord.HTTPException. -/
def Paginator.stop (p : Paginator) (env : PlatformEnv) : PRunResult :=
  let p1 := { p with is_running := false, cancelled := p.cancelled ++ p.tasks, tasks := [] }
  { final := p1,
    calls := [Call.deleteMessage],
    escaped :=
      match env.deleteErr with
      | some Err.httpException => none
      | e => e }

/-- `Paginator._run` (paginator.py 110-130): while running, wait for
the next matching event; an exhausted event list is a wait that timed
out (`len(done) == 0`), which returns `await self.stop()`; otherwise
spawn a detached controller task for the payload and loop.  The
detached tasks run outside this coroutine, so the state is unchanged
by them here. -/
def Paginator.runLoop (p : Paginator) (env : PlatformEnv) :
    List RawReactionActionEvent → PRunResult
  | [] =>
      if p.is_running then Paginator.stop p env
      else { final := p, calls := [], escaped := none }
  | _ :: rest =>
      if p.is_running then
        let r := Paginator.runLoop p env rest
        { r with calls := Call.spawnController :: r.calls }
      else { final := p, calls := [], escaped := none }

/-- The reply observed by the secondary listener of
`Paginator.get_input` (paginator.py 159-192): the digits the user
typed, or none when the 30 second sub-wait timed out. -/
structure InputEnv where
  response : Option Int
deriving DecidableEq, Repr

/-- `Paginator.get_input` (paginator.py 159-192): a no-op while the
advisory lock is held; otherwise prompt, and on a digit reply move to
that one-based page, clamping above-range input to the last page and
ignoring zero.  The prompt sends and deletions are ephemeral and not
recorded. -/
def Paginator.get_input (p : Paginator) (env : InputEnv) : Paginator :=
  if p.lock_locked then p
  else
    match env.response with
    | none => p
    | some n =>
        let idx : Int := n - 1
        if 0 ≤ idx ∧ idx ≤ p.max_pages then { p with index := idx }
        else if idx > p.max_pages then { p with index := p.max_pages }
        else p

/-- `Paginator.lock_or_unlock` (paginator.py 194-213): a no-op while
the advisory lock is held or for anyone but the invoking author;
otherwise toggle the lock owner between unset and the author. -/
def Paginator.lock_or_unlock (p : Paginator) (user_id : Nat) : Paginator :=
  if p.lock_locked then p
  else if p.ctx_author_id ≠ user_id then p
  else
    match p.author with
    | none => { p with author := some p.ctx_author_id }
    | some _ => { p with author := none }

/-- Environment for one controller invocation. -/
structure ControllerEnv where
  inputEnv : InputEnv
  platform : PlatformEnv
deriving DecidableEq, Repr

/-- `Paginator.controller` (paginator.py 215-241): remember the
fallback index, look the emoji up in `_reactions`, run the selected
control (stop returns immediately after `self.stop()`), restore the
fallback when the new index left `[0, max_pages]`, skip the render
when the index is unchanged, and otherwise edit the message with the
kwargs of the new page. -/
def Paginator.controllerStep (p : Paginator) (emoji : String) (user_id : Nat)
    (env : ControllerEnv) : PRunResult :=
  let fallback := p.index
  let control := (p.reactions.find? fun kv => kv.1 == emoji).map Prod.snd
  if control = some PControl.stop then Paginator.stop p env.platform
  else
    let p1 :=
      if control = some PControl.first then { p with index := 0 }
      else if control = some PControl.previous then { p with index := p.index - 1 }
      else if control = some PControl.next then { p with index := p.index + 1 }
      else if control = some PControl.last then { p with index := p.max_pages }
      else if control = some PControl.input then Paginator.get_input p env.inputEnv
      else if control = some PControl.lock then Paginator.lock_or_unlock p user_id
      else p
    let p2 := if p1.index < 0 ∨ p1.index > p1.max_pages then { p1 with index := fallback } else p1
    if p2.index = fallback then { final := p2, calls := [], escaped := none }
    else
      match Paginator.get_page_kwargs p2.pages p2.index.toNat with
      | Except.error e => { final := p2, calls := [], escaped := some e }
      | Except.ok k => { final := p2, calls := [Call.edit k], escaped := none }

/-- The clamping behaviour that the spec attributes to show_page.
Modelled from the spec words for comparison with `Base.setIndex`:
clamp the index into `[0, pageCount - 1]`. -/
def clampIndexSpec (count : Nat) (i : Int) : Int :=
  max 0 (min i ((count : Int) - 1))

deriving instance DecidableEq for Except

/-! Concrete instances used by counterexamples and witnesses. -/

/-- A running two-page Base session with the lock owner unset. -/
def baseC1 : Base :=
  { pages := [Page.str "a", Page.str "b"], embed_links := true, author := none,
    bot_user_id := 1, message := some 10, index := 0,
    controller := [{ emoji := "x", position := 0 }], is_running := true,
    tasks := [], cancelled := [] }

/-- An event for a foreign message carrying an unknown emoji. -/
def evC1 : RawReactionActionEvent := { user_id := 7, message_id := 99, emoji := "zzz" }

/-- A running two-page Base session bound to author 5. -/
def baseC2 : Base :=
  { pages := [Page.str "a", Page.str "b"], embed_links := true, author := some 5,
    bot_user_id := 1, message := some 10, index := 0, controller := [],
    is_running := true, tasks := [TaskKind.runTask], cancelled := [] }

/-- A running two-page Paginator session. -/
def pgC2 : Paginator :=
  { pages := [Page.str "a", Page.str "b"], is_compact_flag := false, author := some 5,
    ctx_author_id := 5, message_id := 10, index := 0, reactions := defaultReactions,
    lock_locked := false, is_running := true, tasks := [], cancelled := [] }

/-- A platform environment in which every call succeeds. -/
def envOk : PlatformEnv := { deleteErr := none, clearErr := none }

/-- A platform environment in which delete raises HTTPException. -/
def envC3 : PlatformEnv := { deleteErr := some Err.httpException, clearErr := none }

/-- A dispatch-loop history: one normal dispatch, then a control that
raises StopPagination with the delete action. -/
def eventsC3 : List LoopEv := [LoopEv.cont, LoopEv.raiseStop StopAction.deleteMessage]

/-- A running Base session whose controller has key x only. -/
def baseC10 : Base :=
  { pages := [Page.str "a", Page.str "b"], embed_links := true, author := some 5,
    bot_user_id := 1, message := some 10, index := 0,
    controller := [{ emoji := "x", position := 0 }], is_running := true,
    tasks := [], cancelled := [] }

/-- An event for the session message whose emoji is not a controller key. -/
def evC10 : RawReactionActionEvent := { user_id := 5, message_id := 10, emoji := "y" }

/-- A running three-page Base session currently at index 2. -/
def baseC4 : Base :=
  { pages := [Page.str "a", Page.str "b", Page.str "c"], embed_links := true,
    author := some 5, bot_user_id := 1, message := some 10, index := 2,
    controller := [], is_running := true, tasks := [], cancelled := [] }

/-- An idle two-page Base session with only string pages and the
embed-links option at its default. -/
def baseC5 : Base :=
  { pages := [Page.str "a", Page.str "b"], embed_links := true, author := none,
    bot_user_id := 0, message := none, index := 0, controller := [],
    is_running := false, tasks := [], cancelled := [] }

/-- A capability set that only lacks embed-links. -/
def permsC5 : Permissions :=
  { send_messages := true, embed_links := false, add_reactions := true,
    use_external_emojis := true, read_message_history := true }

/-- A guild invocation context carrying `permsC5`. -/
def ctxC5 : Ctx :=
  { author_id := 5, bot_user_id := 1, in_guild := true, perms := permsC5,
    sent_message_id := 10 }

/-- An idle single-page Base session. -/
def baseC7 : Base :=
  { pages := [Page.str "only"], embed_links := true, author := none,
    bot_user_id := 0, message := none, index := 0, controller := [],
    is_running := false, tasks := [], cancelled := [] }

/-- A guild invocation context with the full capability set. -/
def ctxC7 : Ctx :=
  { author_id := 5, bot_user_id := 1, in_guild := true,
    perms := { send_messages := true, embed_links := true, add_reactions := true,
               use_external_emojis := true, read_message_history := true },
    sent_message_id := 10 }

/-- A five-page Paginator session at index 2 with default reactions. -/
def pgC8 : Paginator :=
  { pages := [Page.str "1", Page.str "2", Page.str "3", Page.str "4", Page.str "5"],
    is_compact_flag := false, author := none, ctx_author_id := 5, message_id := 10,
    index := 2, reactions := defaultReactions, lock_locked := false,
    is_running := true, tasks := [], cancelled := [] }

/-- The same session at index 0. -/
def pgC8zero : Paginator := { pgC8 with index := 0 }

/-- A controller environment with a timed-out sub-prompt and a
failure-free platform. -/
def envC8 : ControllerEnv := { inputEnv := { response := none }, platform := envOk }

/-- An idle three-page Base session. -/
def baseC9 : Base :=
  { pages := [Page.str "a", Page.str "b", Page.str "c"], embed_links := true,
    author := none, bot_user_id := 0, message := none, index := 0,
    controller := [], is_running := false, tasks := [], cancelled := [] }

/-- A direct-message invocation context with the full capability set. -/
def ctxC9 : Ctx :=
  { author_id := 5, bot_user_id := 1, in_guild := false,
    perms := { send_messages := true, embed_links := true, add_reactions := true,
               use_external_emojis := true, read_message_history := true },
    sent_message_id := 10 }

/-! Theorems. -/

/-- C1, counterexample: with the lock owner unset, the filter accepts
an event whose message id differs from the session message and whose
emoji is not in the active control set, although the claim says every
such event is rejected. -/
theorem C1_check_counterexample :
    Base.check baseC1 evC1 = true ∧ evC1.message_id ≠ Base.messageId baseC1 ∧
      (Base.controllerKeys baseC1).contains evC1.emoji = false := by decide

/-- C1, amended: when the lock owner is set, the filter accepts an
event exactly when the actor is the lock owner, the actor is not the
bot (Base only; the Paginator filter has no bot conjunct), the event
message is the session message and the symbol is an active key; when
the lock owner is unset, the filter accepts every event. -/
theorem C1_check_accepts (b : Base) (p : Paginator) (ev : RawReactionActionEvent) :
    (Base.check b ev = true ↔
      b.author = none ∨ ∃ a, b.author = some a ∧ ev.user_id = a ∧
        ev.user_id ≠ b.bot_user_id ∧ ev.message_id = b.messageId ∧
        ev.emoji ∈ b.controllerKeys) ∧
    (Paginator.check p ev = true ↔
      p.author = none ∨ ∃ a, p.author = some a ∧ ev.user_id = a ∧
        ev.message_id = p.message_id ∧ ev.emoji ∈ p.reactions.map Prod.fst) := by
  constructor
  · cases hb : b.author with
    | none => simp [Base.check, hb]
    | some aid => simp [Base.check, hb, and_assoc]
  · cases hp : p.author with
    | none => simp [Paginator.check, hp]
    | some aid => simp [Paginator.check, hp, and_assoc, List.any_eq_true, List.mem_map]

/-- C2, counterexample: a running Paginator session whose wait
elapses with zero matching events deletes the message and does not
clear reactions, although the claim says every session clears
reactions and never deletes on timeout. -/
theorem C2_timeout_counterexample :
    pgC2.is_running = true ∧
      (Paginator.runLoop pgC2 envOk []).calls = [Call.deleteMessage] ∧
      Call.clearReactions ∉ (Paginator.runLoop pgC2 envOk []).calls := by decide

/-- C2, amended: on a wait that elapses with zero matching events, a
running Base session performs exactly the clear-reactions call and
never delete, while a running Paginator session runs stop, which
performs delete and never clear-reactions. -/
theorem C2_timeout_cleanup (b : Base) (p : Paginator) (envb envp : PlatformEnv)
    (hb : b.is_running = true) (hp : p.is_running = true) :
    (Base.run b [] envb).calls = [Call.clearReactions] ∧
      Call.deleteMessage ∉ (Base.run b [] envb).calls ∧
      (Paginator.runLoop p envp []).calls = [Call.deleteMessage] ∧
      Call.clearReactions ∉ (Paginator.runLoop p envp []).calls := by
  simp [Base.run, loopBody, handleStopAction, hb, Paginator.runLoop, Paginator.stop, hp]

/-- C2, witness: the amended statement evaluated on the two concrete
running sessions. -/
theorem C2_witness :
    (Base.run baseC2 [] envOk).calls = [Call.clearReactions] ∧
      Call.deleteMessage ∉ (Base.run baseC2 [] envOk).calls ∧
      (Paginator.runLoop pgC2 envOk []).calls = [Call.deleteMessage] ∧
      Call.clearReactions ∉ (Paginator.runLoop pgC2 envOk []).calls :=
  C2_timeout_cleanup baseC2 pgC2 envOk envOk (by decide) (by decide)

/-- The while-loop of Base run never ends in the crashed exit when no
dispatched control crashes. -/
theorem loopBody_no_crash (events : List LoopEv) :
    ∀ r : Bool, (∀ e ∈ events, e ≠ LoopEv.crash) → loopBody r events ≠ LoopExit.crashed := by
  induction events with
  | nil => intro r _; cases r <;> simp [loopBody]
  | cons e rest ih =>
      intro r h
      cases r
      · simp [loopBody]
      · cases e with
        | cont =>
            have hrest := ih true (fun x hx => h x (List.mem_cons_of_mem _ hx))
            simpa [loopBody] using hrest
        | raiseStop a => simp [loopBody]
        | crash => exact absurd rfl (h LoopEv.crash (List.mem_cons_self _ _))

/-- C3: whatever ends the running loop of Base, the final state has
the running flag false and an empty task list; the task cleanup is
idempotent; and when the platform cleanup calls fail only with
HTTPException, no error escapes the coroutine. -/
theorem C3_termination_cleanup (b : Base) (events : List LoopEv) (env : PlatformEnv) :
    (Base.run b events env).final.is_running = false ∧
    (Base.run b events env).final.tasks = [] ∧
    Base.tasks_cleanup (Base.tasks_cleanup b) = Base.tasks_cleanup b ∧
    ((∀ e ∈ events, e ≠ LoopEv.crash) →
      (∀ x, env.deleteErr = some x → x = Err.httpException) →
      (∀ x, env.clearErr = some x → x = Err.httpException) →
      (Base.run b events env).escaped = none) := by
  refine ⟨by simp [Base.run, Base.tasks_cleanup], by simp [Base.run, Base.tasks_cleanup],
    by simp [Base.tasks_cleanup], ?_⟩
  intro hnc hd hc
  simp only [Base.run]
  rcases hexit : loopBody b.is_running events with _ | a | _
  · simp
  · cases a with
    | doNothing => simp [handleStopAction]
    | deleteMessage =>
        simp only [handleStopAction]
        cases hde : env.deleteErr with
        | none => simp
        | some x => have hx := hd x hde; subst hx; simp
    | clearReactions =>
        simp only [handleStopAction]
        cases hce : env.clearErr with
        | none => simp
        | some x => have hx := hc x hce; subst hx; simp
  · exact absurd hexit (loopBody_no_crash events b.is_running hnc)

/-- C3, witness: the statement evaluated on a concrete session, a
history ending in a delete stop signal, and an environment where the
delete call raises HTTPException. -/
theorem C3_witness :
    (Base.run baseC2 eventsC3 envC3).final.is_running = false ∧
    (Base.run baseC2 eventsC3 envC3).final.tasks = [] ∧
    Base.tasks_cleanup (Base.tasks_cleanup baseC2) = Base.tasks_cleanup baseC2 ∧
    (Base.run baseC2 eventsC3 envC3).escaped = none := by
  have h := C3_termination_cleanup baseC2 eventsC3 envC3
  exact ⟨h.1, h.2.1, h.2.2.1, h.2.2.2 (by decide) (by decide) (by decide)⟩

/-- C10: in a running session, an event for the session message whose
emoji is not a key of the resolved controller makes dispatch call the
missed lookup result, which does not return normally; and when the
lock owner is unset every event passes the filter. -/
theorem C10_dispatch_unguarded (b : Base) (ev : RawReactionActionEvent)
    (hrun : b.is_running = true) (hmsg : ev.message_id = b.messageId)
    (hnk : (Base.controllerKeys b).contains ev.emoji = false) :
    Base.dispatch b ev = DispatchOutcome.crashTypeError ∧
    (b.author = none → ∀ ev2, Base.check b ev2 = true) := by
  constructor
  · have hfind : b.controller.find? (fun c => c.emoji == ev.emoji) = none := by
      rw [List.find?_eq_none]
      intro c hc hbeq
      simp [Base.controllerKeys] at hnk
      have hce : c.emoji = ev.emoji := by simpa using hbeq
      exact hnk c hc hce
    simp [Base.dispatch, hmsg, hrun, hfind]
  · intro ha ev2
    simp [Base.check, ha]

/-- C10, witness: the statement evaluated on a concrete running
session and an event with an unknown emoji on the session message. -/
theorem C10_witness :
    Base.dispatch baseC10 evC10 = DispatchOutcome.crashTypeError ∧
      (baseC10.author = none → ∀ ev2, Base.check baseC10 ev2 = true) :=
  C10_dispatch_unguarded baseC10 evC10 (by decide) (by decide) (by decide)

/-- Claim C4, counterexample: at a three-page session on index 2, show_page with index -1 does not clamp into bounds: the stored index stays 2 and the edit uses page c, while the claimed clamping would select index 0 and page a. -/
theorem C4_counterexample :
    clampIndexSpec baseC4.pages.length (-1) = 0 ∧
      ((Base.show_page baseC4 (-1)).1.index : Int) = 2 ∧
      (Base.show_page baseC4 (-1)).2 = Except.ok { content := some "c", embed := none } ∧
      get_kwargs_from_page baseC4.pages 0 = Except.ok { content := some "a", embed := none } := by
  decide

/-- Claim C4, amended: show_page assigns the index only when the argument lies inside [0, pageCount - 1] and otherwise silently keeps the previous index; the resulting index is in bounds, the pages are untouched, and the message edit uses the page at that resulting index. -/
theorem C4_show_page (b : Base) (i : Int) (h : b.index < b.pages.length) :
    ((Base.show_page b i).1.index =
        if 0 ≤ i ∧ i < (b.pages.length : Int) then i.toNat else b.index) ∧
    (Base.show_page b i).1.index < b.pages.length ∧
    (Base.show_page b i).1.pages = b.pages ∧
    (Base.show_page b i).2 = get_kwargs_from_page b.pages (Base.show_page b i).1.index := by
  by_cases hin : 0 ≤ i ∧ i < (b.pages.length : Int)
  · refine ⟨by simp [Base.show_page, Base.setIndex, hin], ?_,
      by simp [Base.show_page, Base.setIndex, hin],
      by simp [Base.show_page, Base.setIndex, hin]⟩
    simp [Base.show_page, Base.setIndex, hin]
  · refine ⟨by simp [Base.show_page, Base.setIndex, hin], ?_,
      by simp [Base.show_page, Base.setIndex, hin],
      by simp [Base.show_page, Base.setIndex, hin]⟩
    simpa [Base.show_page, Base.setIndex, hin] using h

/-- Claim C4, witness: the amended statement evaluated at a concrete three-page session and index 1. -/
theorem C4_witness :
    ((Base.show_page baseC4 1).1.index =
        if 0 ≤ (1 : Int) ∧ (1 : Int) < (baseC4.pages.length : Int) then (1 : Int).toNat else baseC4.index) ∧
    (Base.show_page baseC4 1).1.index < baseC4.pages.length ∧
    (Base.show_page baseC4 1).1.pages = baseC4.pages ∧
    (Base.show_page baseC4 1).2 = get_kwargs_from_page baseC4.pages (Base.show_page baseC4 1).1.index :=
  C4_show_page baseC4 1 (by decide)

/-- Claim C5, counterexample: a Base session whose pages are all plain strings still fails the gate with the embed-links error under full send permission, because the requirement comes from the embed_links option rather than from any page needing rich content. -/
theorem C5_counterexample :
    Base.ensure_permissions baseC5 permsC5 = some PermError.cannotEmbedLinks ∧
      baseC5.pages.any Page.isEmbed = false ∧ permsC5.send_messages = true := by decide

/-- Claim C5, amended: send-messages is always required; for Base, embed-links is required exactly when the embed_links option is set, while the Paginator gate derives the requirement from the pages; the three reaction capabilities are required exactly when the page count exceeds one; each missing capability yields its own distinct error; and a failing gate makes a guild start fail with that error before any send, leaving the running flag untouched. -/
theorem C5_permission_gate (b : Base) (pg : Paginator) (perms : Permissions) (ctx : Ctx) :
    (perms.send_messages = false →
      Base.ensure_permissions b perms = some PermError.cannotSendMessages) ∧
    (perms.send_messages = true → b.embed_links = true → perms.embed_links = false →
      Base.ensure_permissions b perms = some PermError.cannotEmbedLinks) ∧
    (perms.send_messages = true → (b.embed_links = true → perms.embed_links = true) →
      b.pages.length ≤ 1 → Base.ensure_permissions b perms = none) ∧
    (perms.send_messages = true → (b.embed_links = true → perms.embed_links = true) →
      1 < b.pages.length → perms.add_reactions = false →
      Base.ensure_permissions b perms = some PermError.cannotAddReactions) ∧
    (perms.send_messages = true → (b.embed_links = true → perms.embed_links = true) →
      1 < b.pages.length → perms.add_reactions = true → perms.use_external_emojis = false →
      Base.ensure_permissions b perms = some PermError.cannotUseExternalEmojis) ∧
    (perms.send_messages = true → (b.embed_links = true → perms.embed_links = true) →
      1 < b.pages.length → perms.add_reactions = true → perms.use_external_emojis = true →
      perms.read_message_history = false →
      Base.ensure_permissions b perms = some PermError.cannotReadMessageHistory) ∧
    (pg.pages.any Page.isEmbed = false → perms.send_messages = true →
      Paginator.check_permissions pg perms ≠ some PermError.cannotEmbedLinks) ∧
    (ctx.in_guild = true → ∀ e,
      Base.ensure_permissions
          { b with author := some ctx.author_id, bot_user_id := ctx.bot_user_id } ctx.perms =
        some e →
      (Base.start b ctx).error = some (Err.permError e) ∧
      (Base.start b ctx).calls = [] ∧
      (Base.start b ctx).final.is_running = b.is_running) := by
  refine ⟨?_, ?_, ?_, ?_, ?_, ?_, ?_, ?_⟩
  · intro hs; simp [Base.ensure_permissions, hs]
  · intro hs hbe hpe; simp [Base.ensure_permissions, hs, hbe, hpe]
  · intro hs hbe hlen
    have hno : ¬ (1 < b.pages.length) := by omega
    cases hb2 : b.embed_links with
    | false => simp [Base.ensure_permissions, Base.should_add_reactions, hs, hb2, hno]
    | true =>
        have hpe := hbe hb2
        simp [Base.ensure_permissions, Base.should_add_reactions, hs, hb2, hpe, hno]
  · intro hs hbe hlen har
    cases hb2 : b.embed_links with
    | false => simp [Base.ensure_permissions, Base.should_add_reactions, hs, hb2, hlen, har]
    | true =>
        have hpe := hbe hb2
        simp [Base.ensure_permissions, Base.should_add_reactions, hs, hb2, hpe, hlen, har]
  · intro hs hbe hlen har hue
    cases hb2 : b.embed_links with
    | false => simp [Base.ensure_permissions, Base.should_add_reactions, hs, hb2, hlen, har, hue]
    | true =>
        have hpe := hbe hb2
        simp [Base.ensure_permissions, Base.should_add_reactions, hs, hb2, hpe, hlen, har, hue]
  · intro hs hbe hlen har hue hrh
    cases hb2 : b.embed_links with
    | false =>
        simp [Base.ensure_permissions, Base.should_add_reactions, hs, hb2, hlen, har, hue, hrh]
    | true =>
        have hpe := hbe hb2
        simp [Base.ensure_permissions, Base.should_add_reactions, hs, hb2, hpe, hlen, har, hue, hrh]
  · intro hne hs
    simp only [Paginator.check_permissions, hne, hs]
    repeat' split
    all_goals simp_all
  · intro hg e he
    simp only [Base.start, hg, if_true, he]
    simp

/-- Claim C5, witness: the amended statement evaluated on a concrete session that lacks only embed-links. -/
theorem C5_witness :
    Base.ensure_permissions baseC5 permsC5 = some PermError.cannotEmbedLinks ∧
    (Base.start baseC5 ctxC5).error = some (Err.permError PermError.cannotEmbedLinks) ∧
    (Base.start baseC5 ctxC5).calls = [] ∧
    (Base.start baseC5 ctxC5).final.is_running = baseC5.is_running := by
  have h := C5_permission_gate baseC5 (Paginator.init (PagesInput.list []) false) permsC5 ctxC5
  exact ⟨h.2.1 (by decide) (by decide) (by decide),
    h.2.2.2.2.2.2.2 (by decide) PermError.cannotEmbedLinks (by decide)⟩

/-- Claim C6, counterexample: constructing the Paginator with an empty list raises nothing; the constructor yields a session whose page collection is empty and the failure only surfaces later as an index error at first render. -/
theorem C6_counterexample :
    (Paginator.init (PagesInput.list []) false).pages = [] ∧
      Paginator.get_page_kwargs (Paginator.init (PagesInput.list []) false).pages 0 =
        Except.error Err.indexError := by decide

/-- Claim C6, amended: the Base constructor raises ValueError synchronously on an empty collection, wraps a single page into a one-element sequence and always yields a non-empty collection; the Paginator constructor wraps a single page but accepts an empty list unchecked. -/
theorem C6_construction (el c : Bool) (s : String) (e : Nat) (ps : List Page) :
    Base.init (PagesInput.list []) el = Except.error Err.valueError ∧
    (∀ b, Base.init (PagesInput.singleStr s) el = Except.ok b → b.pages = [Page.str s]) ∧
    (∀ b, Base.init (PagesInput.singleEmbed e) el = Except.ok b → b.pages = [Page.embed e]) ∧
    (∀ input b, Base.init input el = Except.ok b → b.pages ≠ []) ∧
    (Paginator.init (PagesInput.singleStr s) c).pages = [Page.str s] ∧
    (Paginator.init (PagesInput.singleEmbed e) c).pages = [Page.embed e] ∧
    (Paginator.init (PagesInput.list ps) c).pages = ps := by
  refine ⟨by simp [Base.init, PagesInput.wrap], ?_, ?_, ?_,
    by simp [Paginator.init, PagesInput.wrap], by simp [Paginator.init, PagesInput.wrap],
    by simp [Paginator.init, PagesInput.wrap]⟩
  · intro b hb
    simp [Base.init, PagesInput.wrap] at hb
    simp [← hb]
  · intro b hb
    simp [Base.init, PagesInput.wrap] at hb
    simp [← hb]
  · intro input b hb
    cases input with
    | singleStr s2 => simp [Base.init, PagesInput.wrap] at hb; simp [← hb]
    | singleEmbed e2 => simp [Base.init, PagesInput.wrap] at hb; simp [← hb]
    | list ps2 =>
        simp only [Base.init, PagesInput.wrap] at hb
        split at hb
        · cases hb
        · next hlen =>
            cases hb
            simpa using hlen

/-- Claim C6, witness: the amended statement evaluated on the empty list and on a concrete single page. -/
theorem C6_witness :
    Base.init (PagesInput.list []) true = Except.error Err.valueError ∧
    (Paginator.init (PagesInput.singleStr "a") false).pages = [Page.str "a"] := by
  have h := C6_construction true false "a" 0 []
  exact ⟨h.1, h.2.2.2.2.1⟩

/-- Behaviour of the send stage of start on a session without a message. -/
theorem startSend_first_page (b : Base) (ctx : Ctx)
    (hm : b.message = none) (hr : b.is_running = false) :
    ((Base.startSend b ctx).error = none →
      ∃ k rest, get_kwargs_from_page b.pages 0 = Except.ok k ∧
        (Base.startSend b ctx).calls = StartCall.send k :: rest) ∧
    (b.pages.length ≤ 1 →
      (∀ cl ∈ (Base.startSend b ctx).calls,
        cl ≠ StartCall.createRunTask ∧ cl ≠ StartCall.createAddReactionsTask) ∧
      (Base.startSend b ctx).final.is_running = false ∧
      (Base.startSend b ctx).final.tasks = b.tasks) := by
  simp only [Base.startSend, hm]
  cases hk : get_kwargs_from_page b.pages 0 with
  | error e => simp [hr]
  | ok k =>
      simp only
      constructor
      · intro _
        simp only [Base.startTasks, Base.tasks_cleanup]
        split
        · exact ⟨k, [StartCall.createRunTask, StartCall.createAddReactionsTask], by simp, by simp⟩
        · exact ⟨k, [], by simp, by simp⟩
      · intro hlen
        have hno : ¬ (1 < b.pages.length) := by omega
        simp [Base.startTasks, Base.should_add_reactions, hno, hr]

/-- Claim C7: on a fresh idle session, a successful start sends the kwargs of page 0 as its first observable action, before any background task is created; and with at most one page, start creates no run task and no add-reactions task and leaves the session idle with its task list unchanged. -/
theorem C7_start_first_render (b : Base) (ctx : Ctx)
    (hm : b.message = none) (hr : b.is_running = false) :
    ((Base.start b ctx).error = none →
      ∃ k rest, get_kwargs_from_page b.pages 0 = Except.ok k ∧
        (Base.start b ctx).calls = StartCall.send k :: rest) ∧
    (b.pages.length ≤ 1 →
      (∀ cl ∈ (Base.start b ctx).calls,
        cl ≠ StartCall.createRunTask ∧ cl ≠ StartCall.createAddReactionsTask) ∧
      (Base.start b ctx).final.is_running = false ∧
      (Base.start b ctx).final.tasks = b.tasks) := by
  simp only [Base.start]
  split
  · cases hp : Base.ensure_permissions
        { b with author := some ctx.author_id, bot_user_id := ctx.bot_user_id } ctx.perms with
    | some e => simp [hr]
    | none =>
        simp only
        exact startSend_first_page _ ctx hm hr
  · exact startSend_first_page _ ctx hm hr

/-- Claim C7, witness: the statement evaluated on a concrete single-page session started in a guild with full permissions. -/
theorem C7_witness :
    (∃ k rest, get_kwargs_from_page baseC7.pages 0 = Except.ok k ∧
      (Base.start baseC7 ctxC7).calls = StartCall.send k :: rest) ∧
    (∀ cl ∈ (Base.start baseC7 ctxC7).calls,
      cl ≠ StartCall.createRunTask ∧ cl ≠ StartCall.createAddReactionsTask) ∧
    (Base.start baseC7 ctxC7).final.is_running = false ∧
    (Base.start baseC7 ctxC7).final.tasks = baseC7.tasks := by
  have h := C7_start_first_render baseC7 ctxC7 (by decide) (by decide)
  exact ⟨h.1 (by decide), h.2 (by decide)⟩

/-- The default reaction mapping resolves the previous emoji to the previous control. -/
theorem find_reactions_prev :
    ((defaultReactions.find? fun kv => kv.1 == "◀").map Prod.snd) = some PControl.previous := by
  decide

/-- The default reaction mapping resolves the next emoji to the next control. -/
theorem find_reactions_next :
    ((defaultReactions.find? fun kv => kv.1 == "▶").map Prod.snd) = some PControl.next := by
  decide

/-- A previous press whose target index is inside bounds moves the index down by one. -/
theorem controllerStep_prev_final (p : Paginator) (emoji : String) (u : Nat) (env : ControllerEnv)
    (hfind : (p.reactions.find? fun kv => kv.1 == emoji).map Prod.snd = some PControl.previous)
    (hlo : 0 ≤ p.index - 1) (hhi : p.index - 1 ≤ p.max_pages) :
    (Paginator.controllerStep p emoji u env).final = { p with index := p.index - 1 } := by
  have hch : p.index - 1 ≠ p.index := by omega
  simp only [Paginator.controllerStep, hfind]
  simp only [Option.some.injEq, reduceCtorEq, if_false, if_true, reduceIte]
  simp only [Paginator.max_pages]
  simp only [Paginator.max_pages] at hhi
  have hb : ¬ (p.index - 1 < 0 ∨ p.index - 1 > (p.pages.length : Int) - 1) := by omega
  simp only [hb, if_false, hch, reduceIte]
  cases hk : Paginator.get_page_kwargs p.pages (p.index - 1).toNat with
  | error e => simp [hk]
  | ok k => simp [hk]

/-- A next press whose target index is inside bounds moves the index up by one. -/
theorem controllerStep_next_final (p : Paginator) (emoji : String) (u : Nat) (env : ControllerEnv)
    (hfind : (p.reactions.find? fun kv => kv.1 == emoji).map Prod.snd = some PControl.next)
    (hlo : 0 ≤ p.index + 1) (hhi : p.index + 1 ≤ p.max_pages) :
    (Paginator.controllerStep p emoji u env).final = { p with index := p.index + 1 } := by
  have hch : p.index + 1 ≠ p.index := by omega
  simp only [Paginator.controllerStep, hfind]
  simp only [Option.some.injEq, reduceCtorEq, if_false, if_true, reduceIte]
  simp only [Paginator.max_pages]
  simp only [Paginator.max_pages] at hhi
  have hb : ¬ (p.index + 1 < 0 ∨ p.index + 1 > (p.pages.length : Int) - 1) := by omega
  simp only [hb, if_false, hch, reduceIte]
  cases hk : Paginator.get_page_kwargs p.pages (p.index + 1).toNat with
  | error e => simp [hk]
  | ok k => simp [hk]

/-- A previous press at index 0 restores the fallback index and performs no call at all. -/
theorem controllerStep_prev_noop (p : Paginator) (emoji : String) (u : Nat) (env : ControllerEnv)
    (hfind : (p.reactions.find? fun kv => kv.1 == emoji).map Prod.snd = some PControl.previous)
    (h0 : p.index = 0) :
    (Paginator.controllerStep p emoji u env).final.index = 0 ∧
      (Paginator.controllerStep p emoji u env).calls = [] := by
  simp only [Paginator.controllerStep, hfind]
  simp only [Option.some.injEq, reduceCtorEq, if_false, if_true, reduceIte]
  simp only [Paginator.max_pages]
  have hb : p.index - 1 < 0 ∨ p.index - 1 > (p.pages.length : Int) - 1 := by left; omega
  simp only [hb, if_true, reduceIte]
  simp [h0]

/-- Claim C8: on a five-page session at index 2 with the default reactions, dispatching previous twice and then next once yields index 1; and dispatching previous at index 0 leaves the index at 0 and performs no message-edit call. -/
theorem C8_navigation (p q : Paginator) (u : Nat) (env : ControllerEnv)
    (hre : p.reactions = defaultReactions) (hl : p.pages.length = 5) (hi : p.index = 2)
    (hqre : q.reactions = defaultReactions) (hq0 : q.index = 0) :
    (Paginator.controllerStep
        (Paginator.controllerStep
            (Paginator.controllerStep p "◀" u env).final "◀" u env).final "▶" u env).final.index = 1 ∧
    (Paginator.controllerStep q "◀" u env).final.index = 0 ∧
    (Paginator.controllerStep q "◀" u env).calls = [] := by
  have hmax : p.max_pages = 4 := by simp [Paginator.max_pages, hl]
  have h1 : (Paginator.controllerStep p "◀" u env).final = { p with index := p.index - 1 } :=
    controllerStep_prev_final p "◀" u env (by rw [hre]; exact find_reactions_prev)
      (by omega) (by omega)
  rw [h1]
  have h2 : (Paginator.controllerStep { p with index := p.index - 1 } "◀" u env).final =
      { p with index := p.index - 1 - 1 } := by
    have hh := controllerStep_prev_final { p with index := p.index - 1 } "◀" u env
      (by show (p.reactions.find? fun kv => kv.1 == "◀").map Prod.snd = some PControl.previous
          rw [hre]; exact find_reactions_prev)
      (by simp; omega) (by simp [Paginator.max_pages, hl]; omega)
    simpa using hh
  rw [h2]
  have h3 : (Paginator.controllerStep { p with index := p.index - 1 - 1 } "▶" u env).final =
      { p with index := p.index - 1 - 1 + 1 } := by
    have hh := controllerStep_next_final { p with index := p.index - 1 - 1 } "▶" u env
      (by show (p.reactions.find? fun kv => kv.1 == "▶").map Prod.snd = some PControl.next
          rw [hre]; exact find_reactions_next)
      (by simp; omega) (by simp [Paginator.max_pages, hl]; omega)
    simpa using hh
  rw [h3]
  refine ⟨by simp [hi], ?_, ?_⟩
  · exact (controllerStep_prev_noop q "◀" u env (by rw [hqre]; exact find_reactions_prev) hq0).1
  · exact (controllerStep_prev_noop q "◀" u env (by rw [hqre]; exact find_reactions_prev) hq0).2

/-- Claim C8, witness: the statement evaluated on a concrete five-page session. -/
theorem C8_witness :
    (Paginator.controllerStep
        (Paginator.controllerStep
            (Paginator.controllerStep pgC8 "◀" 5 envC8).final "◀" 5 envC8).final "▶" 5 envC8).final.index = 1 ∧
    (Paginator.controllerStep pgC8zero "◀" 5 envC8).final.index = 0 ∧
    (Paginator.controllerStep pgC8zero "◀" 5 envC8).calls = [] :=
  C8_navigation pgC8 pgC8zero 5 envC8 (by decide) (by decide) (by decide) (by decide) (by decide)

/-- start never changes the page collection or the stored index. -/
theorem start_preserves_pages_index (b : Base) (ctx : Ctx) :
    (Base.start b ctx).final.index = b.index ∧
      (Base.start b ctx).final.pages = b.pages := by
  simp only [Base.start, Base.startSend, Base.startTasks, Base.tasks_cleanup]
  repeat' split
  all_goals simp

/-- Claim C9: construction establishes the index bound, and the index setter, show_page, start and the running loop all preserve it; the setter assigns exactly the in-range values and silently leaves the session unchanged otherwise. -/
theorem C9_index_invariant :
    (∀ input el b, Base.init input el = Except.ok b → b.index < b.pages.length) ∧
    (∀ (b : Base) (i : Int), b.index < b.pages.length →
      ((Base.setIndex b i).index < (Base.setIndex b i).pages.length ∧
        ((0 ≤ i ∧ i < (b.pages.length : Int)) → (Base.setIndex b i).index = i.toNat) ∧
        (¬(0 ≤ i ∧ i < (b.pages.length : Int)) → Base.setIndex b i = b))) ∧
    (∀ (b : Base) (i : Int), b.index < b.pages.length →
      (Base.show_page b i).1.index < (Base.show_page b i).1.pages.length) ∧
    (∀ (b : Base) (ctx : Ctx), b.index < b.pages.length →
      (Base.start b ctx).final.index < (Base.start b ctx).final.pages.length) ∧
    (∀ (b : Base) (events : List LoopEv) (env : PlatformEnv), b.index < b.pages.length →
      (Base.run b events env).final.index < (Base.run b events env).final.pages.length) := by
  refine ⟨?_, ?_, ?_, ?_, ?_⟩
  · intro input el b hb
    cases input with
    | singleStr s => simp [Base.init, PagesInput.wrap] at hb; simp [← hb]
    | singleEmbed e => simp [Base.init, PagesInput.wrap] at hb; simp [← hb]
    | list ps =>
        simp only [Base.init, PagesInput.wrap] at hb
        split at hb
        · cases hb
        · next hlen => cases hb; simp; omega
  · intro b i h
    by_cases hin : 0 ≤ i ∧ i < (b.pages.length : Int)
    · refine ⟨?_, fun _ => by simp [Base.setIndex, hin], fun hcon => absurd hin hcon⟩
      simp [Base.setIndex, hin]
    · refine ⟨?_, fun hcon => absurd hcon hin, fun _ => by simp [Base.setIndex, hin]⟩
      simpa [Base.setIndex, hin] using h
  · intro b i h
    by_cases hin : 0 ≤ i ∧ i < (b.pages.length : Int)
    · simp [Base.show_page, Base.setIndex, hin]
    · simpa [Base.show_page, Base.setIndex, hin] using h
  · intro b ctx h
    have hp := start_preserves_pages_index b ctx
    rw [hp.1, hp.2]
    exact h
  · intro b events env h
    simpa [Base.run, Base.tasks_cleanup] using h

/-- Claim C9, witness: the setter and start conjuncts evaluated on a concrete idle three-page session. -/
theorem C9_witness :
    ((Base.setIndex baseC9 2).index < (Base.setIndex baseC9 2).pages.length ∧
      ((0 ≤ (2 : Int) ∧ (2 : Int) < (baseC9.pages.length : Int)) → (Base.setIndex baseC9 2).index = (2 : Int).toNat) ∧
      (¬(0 ≤ (2 : Int) ∧ (2 : Int) < (baseC9.pages.length : Int)) → Base.setIndex baseC9 2 = baseC9)) ∧
    (Base.start baseC9 ctxC9).final.index < (Base.start baseC9 ctxC9).final.pages.length := by
  have h := C9_index_invariant
  exact ⟨h.2.1 baseC9 2 (by decide), h.2.2.2.1 baseC9 ctxC9 (by decide)⟩

end Pygicord
